import Mathlib

/-!
Verification of the multi-agent-decision-system repository against its
natural-language specification.

The Python sources are shallowly embedded: pure functions become Lean
functions, Python `float` arithmetic on the values relevant here is modelled
as exact rationals (`ℚ`) with Python rounding (`round(x, 2)` is round half to
even, embedded as `pyRound2`), Python `str` is `String` (substring tests via
`pyIn`, codepoint-wise, matching Python `in` on `str`), and nondeterministic
or effectful inputs (LLM completions, HTTP requests, random choices) become
explicit function parameters.
-/

namespace MADS

/-! ### Python string primitives -/

/-- Python `str.lower()` restricted to the code points the repository feeds
it: ASCII letters are lowered, everything else (in particular the Japanese
trigger words the classifiers use) is left unchanged, exactly as Python
leaves it. -/
def pyCharLower (c : Char) : Char :=
  if 65 ≤ c.toNat ∧ c.toNat ≤ 90 then Char.ofNat (c.toNat + 32) else c

/-- `s.lower()` applied codepoint by codepoint. -/
def pyLower (s : String) : String := String.mk (s.toList.map pyCharLower)

/-- Python `needle in haystack` on `str`: contiguous codepoint substring. -/
def pyIn (needle haystack : String) : Prop :=
  needle.toList <:+: haystack.toList

instance (n h : String) : Decidable (pyIn n h) :=
  List.decidableInfix n.toList h.toList

theorem pyIn_trans {a b c : String} (h1 : pyIn a b) (h2 : pyIn b c) :
    pyIn a c := List.IsInfix.trans h1 h2

/-! ### Opinion data model (src/collaboration_system.py) -/

/-- `OpinionType` enum. -/
inductive OpinionType where
  | STRONGLY_AGREE
  | AGREE
  | NEUTRAL
  | DISAGREE
  | STRONGLY_DISAGREE
deriving DecidableEq, Repr

/-- `Opinion` dataclass; `confidence` (a Python float) is modelled in `ℚ`. -/
structure Opinion where
  agent_name : String
  content : String
  opinion_type : OpinionType
  confidence : ℚ
  evidence : List String
  related_topics : List String
  timestamp : String
deriving DecidableEq, Repr

/-! ### The opinion classifier
(src/main_intelligent_collaboration.py, `_extract_opinion_from_response`) -/

def strongAgreeWords : List String := ["強く賛成", "完全に同意", "絶対に"]

def agreeWords : List String := ["賛成", "同意", "良い", "正しい"]

def disagreeWords : List String := ["反対", "異議", "問題", "懸念"]

def strongDisagreeWords : List String := ["強く反対", "完全に反対", "絶対に反対"]

def confidenceIndicators : List String := ["確信", "明確", "間違いなく", "確実", "データ"]

/-- Python `any(word in hay for word in words)`. -/
def pyAnyIn (words : List String) (hay : String) : Bool :=
  words.any fun w => decide (pyIn w hay)

/-- `_extract_opinion_from_response(agent_name, response)`. The call
`datetime.now().isoformat()` is passed in as `now`. -/
def extract_opinion_from_response (agent_name response now : String) : Opinion :=
  let response_lower := pyLower response
  let opinion_type :=
    if pyAnyIn strongAgreeWords response_lower then OpinionType.STRONGLY_AGREE
    else if pyAnyIn agreeWords response_lower then OpinionType.AGREE
    else if pyAnyIn disagreeWords response_lower then OpinionType.DISAGREE
    else if pyAnyIn strongDisagreeWords response_lower then OpinionType.STRONGLY_DISAGREE
    else OpinionType.NEUTRAL
  let confidence : ℚ :=
    min (1/2 + (1/10) *
      ((confidenceIndicators.filter fun w => decide (pyIn w response_lower)).length : ℚ)) 1
  let evidence : List String :=
    (if pyIn "研究" response_lower ∨ pyIn "データ" response_lower then ["研究・データ"] else [])
    ++ (if pyIn "経験" response_lower ∨ pyIn "実例" response_lower then ["経験・実例"] else [])
    ++ (if pyIn "理論" response_lower then ["理論"] else [])
  { agent_name := agent_name
    content := response
    opinion_type := opinion_type
    confidence := confidence
    evidence := evidence
    related_topics := []
    timestamp := now }

/-! ### Python rounding
Python `round(x, 2)` on a float rounds to the nearest multiple of 1/100,
ties to the even multiple (banker's rounding).  The floats the repository
rounds here are modelled as exact rationals. -/

/-- Round a rational to the nearest integer, ties to even. -/
def pyRoundHalfEvenZ (y : ℚ) : ℤ :=
  let f : ℤ := ⌊y⌋
  let r : ℚ := y - f
  if r < 1/2 then f
  else if 1/2 < r then f + 1
  else if f % 2 = 0 then f else f + 1

/-- Python `round(x, 2)`. -/
def pyRound2 (q : ℚ) : ℚ := (pyRoundHalfEvenZ (q * 100) : ℚ) / 100

/-- The IEEE-754 binary64 value nearest to a rational: the significand is
rounded to 53 bits, ties to the even significand.  The exponent range is
unbounded here — every value this file rounds lies far inside the normal
range, where real doubles behave the same.  `Int.log 2 |q|` places the
leading bit, so `q * 2 ^ (52 - log)` lies in `[2^52, 2^53)` and rounding it
to an integer is exactly the significand rounding. -/
def fl64 (q : ℚ) : ℚ :=
  if q = 0 then 0
  else
    let s : ℤ := 52 - Int.log 2 |q|
    (pyRoundHalfEvenZ (q * (2:ℚ) ^ s) : ℚ) / (2:ℚ) ^ s

/-! ### Conflict analysis (src/collaboration_system.py,
`OpinionConflictResolver.analyze_conflict_level`) -/

/-- `ConflictLevel` enum. -/
inductive ConflictLevel where
  | HARMONY
  | MILD_DISAGREEMENT
  | MODERATE_CONFLICT
  | STRONG_CONFLICT
  | DEADLOCK
deriving DecidableEq, Repr

/-- `Counter(opinion_types).get(t, 0)`. -/
def countOpinionType (opinions : List Opinion) (t : OpinionType) : ℕ :=
  (opinions.filter fun op => decide (op.opinion_type = t)).length

/-- `analyze_conflict_level(opinions)`.  The float products
`len(opinions) * 0.5` and `len(opinions) * 0.6` are modelled as the exact
rationals `n * (1/2)` and `n * (3/5)`; for every list length the program can
build, the float comparison and the exact comparison agree. -/
def analyze_conflict_level (opinions : List Opinion) : ConflictLevel :=
  if opinions.length < 2 then ConflictLevel.HARMONY
  else
    let strong_negative := countOpinionType opinions OpinionType.STRONGLY_DISAGREE
    let negative := countOpinionType opinions OpinionType.DISAGREE
    let positive := countOpinionType opinions OpinionType.AGREE
    let strong_positive := countOpinionType opinions OpinionType.STRONGLY_AGREE
    let total_strong_opinions := strong_negative + strong_positive
    let total_conflicting := strong_negative + negative + positive + strong_positive
    if (opinions.length : ℚ) * (1/2) ≤ (total_strong_opinions : ℚ)
        ∧ 0 < strong_negative ∧ 0 < strong_positive then
      ConflictLevel.STRONG_CONFLICT
    else if (opinions.length : ℚ) * (3/5) ≤ (total_conflicting : ℚ) then
      ConflictLevel.MODERATE_CONFLICT
    else if 0 < negative ∨ 0 < strong_negative then
      ConflictLevel.MILD_DISAGREEMENT
    else
      ConflictLevel.HARMONY

/-- The conflict-level rule exactly as the specification states it, written
independently of `analyze_conflict_level` for comparison: STRONG_CONFLICT iff
strong opinions reach half the list with both strong polarities present, else
MODERATE_CONFLICT iff non-neutral opinions reach 0.6 of the list, else
MILD_DISAGREEMENT iff some negative opinion exists, else HARMONY; fewer than
two opinions is always HARMONY. -/
def conflictLevelSpec (opinions : List Opinion) : ConflictLevel :=
  let n := opinions.length
  let strong_neg := countOpinionType opinions OpinionType.STRONGLY_DISAGREE
  let strong_pos := countOpinionType opinions OpinionType.STRONGLY_AGREE
  let nonNeutral :=
    (opinions.filter fun op => decide (op.opinion_type ≠ OpinionType.NEUTRAL)).length
  let anyNegative := opinions.any fun op =>
    decide (op.opinion_type = OpinionType.DISAGREE
      ∨ op.opinion_type = OpinionType.STRONGLY_DISAGREE)
  if n < 2 then ConflictLevel.HARMONY
  else if (n : ℚ) * (1/2) ≤ ((strong_neg + strong_pos : ℕ) : ℚ)
      ∧ 0 < strong_neg ∧ 0 < strong_pos then ConflictLevel.STRONG_CONFLICT
  else if (n : ℚ) * (3/5) ≤ (nonNeutral : ℚ) then ConflictLevel.MODERATE_CONFLICT
  else if anyNegative then ConflictLevel.MILD_DISAGREEMENT
  else ConflictLevel.HARMONY

/-! ### Consensus level (src/collaboration_system.py,
`ConsensusBuilder._calculate_consensus_level`) -/

/-- `_calculate_consensus_level(opinions)`, in binary64 arithmetic as the
program runs it.  The products `positive_count * 1.0`, `neutral_count * 0.5`,
`negative_count * 0.0` and their two sums are all multiples of 0.5 of
magnitude at most the list length, hence exact doubles; the division is the
one operation that rounds, so it is wrapped in `fl64`.  `round(x, 2)` then
rounds the resulting double's exact value half-to-even (`pyRound2`); the
returned hundredths value `k/100` stands for the double the program returns,
`fl64 (k/100)` — a one-to-one renaming of the possible outputs. -/
def calculate_consensus_level (opinions : List Opinion) : ℚ :=
  if opinions.length = 0 then 0
  else
    let positive_count :=
      (opinions.filter fun op => decide (op.opinion_type = OpinionType.AGREE
        ∨ op.opinion_type = OpinionType.STRONGLY_AGREE)).length
    let neutral_count := countOpinionType opinions OpinionType.NEUTRAL
    let negative_count := opinions.length - positive_count - neutral_count
    pyRound2 (fl64 (((positive_count : ℚ) * 1 + (neutral_count : ℚ) * (1/2)
      + (negative_count : ℚ) * 0) / (opinions.length : ℚ)))

/-- The per-opinion weight of the specification:
agree/strongly_agree 1.0, neutral 0.5, disagree/strongly_disagree 0.0. -/
def opinionWeight : OpinionType → ℚ
  | OpinionType.STRONGLY_AGREE => 1
  | OpinionType.AGREE => 1
  | OpinionType.NEUTRAL => 1/2
  | OpinionType.DISAGREE => 0
  | OpinionType.STRONGLY_DISAGREE => 0

/-- The consensus level as the amended claim states it: the binary64 value
of the mean of the per-opinion weights, rounded to two decimals half to
even.  (The specification's original sentence rounds the exact mean; the
program rounds the double, which differs on inputs such as a mean of
0.575.) -/
def consensusLevelSpec (opinions : List Opinion) : ℚ :=
  pyRound2 (fl64 ((opinions.map fun op => opinionWeight op.opinion_type).sum
    / (opinions.length : ℚ)))

/-! ### Voting (src/collaboration_system.py, `VotingSystem`)
`conduct_vote` draws one random option per agent; the random draws enter the
model as the explicit function `choice`.  A Python `dict` keyed by strings is
an insertion-ordered association list, a `Counter` likewise; `sorted(...,
reverse=True)` and `Counter.most_common` are stable descending sorts by
count. -/

/-- `votes[agent] = vote` on a dict modelled as an insertion-ordered
association list: overwrite in place when the key exists, append otherwise. -/
def dictInsert (d : List (String × String)) (k v : String) : List (String × String) :=
  if d.any fun p => decide (p.1 = k) then
    d.map fun p => if p.1 = k then (k, v) else p
  else d ++ [(k, v)]

/-- The voting loop: `for agent in agents: votes[agent] = random.choice(options)`. -/
def buildVotes (agents : List String) (choice : String → String) :
    List (String × String) :=
  agents.foldl (fun d a => dictInsert d a (choice a)) []

/-- One step of `Counter(values)`: count the value, keys in first-seen order. -/
def counterAdd (c : List (String × ℕ)) (v : String) : List (String × ℕ) :=
  if c.any fun p => decide (p.1 = v) then
    c.map fun p => if p.1 = v then (p.1, p.2 + 1) else p
  else c ++ [(v, 1)]

/-- `Counter(values)` as an insertion-ordered association list. -/
def mkCounter (values : List String) : List (String × ℕ) :=
  values.foldl counterAdd []

/-- Insert into a descending-by-count list, before the first entry whose count
is not larger: the building block of a stable descending sort. -/
def insertByCountDesc {α : Type} (x : α × ℕ) :
    List (α × ℕ) → List (α × ℕ)
  | [] => [x]
  | y :: ys => if y.2 ≤ x.2 then x :: y :: ys else y :: insertByCountDesc x ys

/-- Python `sorted(pairs, key=lambda p: p[1], reverse=True)`: descending by
count and stable (equal counts keep their original order; insertion from the
right end does the same). -/
def sortByCountDesc {α : Type} (l : List (α × ℕ)) : List (α × ℕ) :=
  l.foldr insertByCountDesc []

/-- `Counter.most_common()`: the entries sorted by count, descending, stable. -/
def mostCommon (c : List (String × ℕ)) : List (String × ℕ) :=
  sortByCountDesc c

/-- `_calculate_margin(vote_counts, total_votes)`.  The `match` arms mirror
the Python `if len(sorted_counts) >= 2 / else` branches; `mostCommon`
preserves length, so after the first guard the list has at least two entries
and the `[]` arm is unreachable. -/
def calculate_margin (vote_counts : List (String × ℕ)) (total_votes : ℕ) : ℚ :=
  if vote_counts.length < 2 then 1
  else
    let margin : ℚ :=
      match mostCommon vote_counts with
      | a :: b :: _ => ((a.2 : ℚ) - (b.2 : ℚ)) / (total_votes : ℚ)
      | [a] => (a.2 : ℚ) / (total_votes : ℚ)
      | [] => 0
    pyRound2 margin

/-- The fields of the result dict `conduct_vote` builds. -/
structure VoteResult where
  question : String
  options : List String
  votes : List (String × String)
  results : List (String × ℕ)
  winner : Option String
  participation_rate : ℚ
  margin : ℚ
deriving DecidableEq, Repr

/-- `conduct_vote(agents, question, options)` with the per-agent random draw
passed in as `choice`. -/
def conduct_vote (agents : List String) (question : String)
    (options : List String) (choice : String → String) : VoteResult :=
  let votes := buildVotes agents choice
  let vote_counts := mkCounter (votes.map fun p => p.2)
  let total_votes := votes.length
  { question := question
    options := options
    votes := votes
    results := vote_counts
    winner := (mostCommon vote_counts).head?.map fun p => p.1
    participation_rate :=
      if agents.length = 0 then 0 else (total_votes : ℚ) / (agents.length : ℚ)
    margin := calculate_margin vote_counts total_votes }

/-! ### Dynamic agent generation (src/agent_factory.py) -/

/-- `ExpertiseArea` enum, in its definition (= enumeration) order. -/
inductive ExpertiseArea where
  | TECHNOLOGY
  | BUSINESS
  | ACADEMIC
  | CREATIVE
  | LEGAL
  | MEDICAL
  | FINANCE
  | ENVIRONMENT
  | EDUCATION
  | SOCIAL
deriving DecidableEq, Repr

/-- `list(ExpertiseArea)`: the members in enumeration order. -/
def ExpertiseArea.allList : List ExpertiseArea :=
  [ExpertiseArea.TECHNOLOGY, ExpertiseArea.BUSINESS, ExpertiseArea.ACADEMIC,
   ExpertiseArea.CREATIVE, ExpertiseArea.LEGAL, ExpertiseArea.MEDICAL,
   ExpertiseArea.FINANCE, ExpertiseArea.ENVIRONMENT, ExpertiseArea.EDUCATION,
   ExpertiseArea.SOCIAL]

/-- `.value` of each enum member. -/
def ExpertiseArea.value : ExpertiseArea → String
  | ExpertiseArea.TECHNOLOGY => "technology"
  | ExpertiseArea.BUSINESS => "business"
  | ExpertiseArea.ACADEMIC => "academic"
  | ExpertiseArea.CREATIVE => "creative"
  | ExpertiseArea.LEGAL => "legal"
  | ExpertiseArea.MEDICAL => "medical"
  | ExpertiseArea.FINANCE => "finance"
  | ExpertiseArea.ENVIRONMENT => "environment"
  | ExpertiseArea.EDUCATION => "education"
  | ExpertiseArea.SOCIAL => "social"

/-- One entry of a template table's `"profiles"` list. -/
structure ProfileTemplate where
  name : String
  personality : String
  debate_style : String
  knowledge_focus : List String
  system_template : String
deriving DecidableEq, Repr

/-- `AgentFactory._load_agent_templates()`: `none` models an area absent from
the dict (only TECHNOLOGY, BUSINESS, ACADEMIC, CREATIVE and SOCIAL have
entries). -/
def agent_templates : ExpertiseArea → Option (List ProfileTemplate)
  | ExpertiseArea.TECHNOLOGY => some
      [{ name := "テックエバンジェリスト"
         personality := "革新的で楽観的、技術の可能性を追求"
         debate_style := "データ駆動、実例重視、未来志向"
         knowledge_focus := ["最新技術動向", "プログラミング", "AI/ML", "クラウド"]
         system_template := "あなたは最新技術に精通したテックエバンジェリストです。{topic}について、技術的観点から革新的で実践的な意見を述べてください。データや実例を交えて、将来の可能性も含めて議論してください。" },
       { name := "システムアーキテクト"
         personality := "論理的で慎重、システム全体を俯瞰"
         debate_style := "構造的思考、リスク分析、スケーラビリティ重視"
         knowledge_focus := ["システム設計", "アーキテクチャ", "セキュリティ", "パフォーマンス"]
         system_template := "あなたは経験豊富なシステムアーキテクトです。{topic}について、システム全体の構造や設計の観点から、スケーラビリティやリスクを考慮した専門的な分析を行ってください。" }]
  | ExpertiseArea.BUSINESS => some
      [{ name := "戦略コンサルタント"
         personality := "分析的で結果重視、ビジネス価値を追求"
         debate_style := "SWOT分析、ROI重視、市場データ活用"
         knowledge_focus := ["経営戦略", "市場分析", "競合分析", "収益モデル"]
         system_template := "あなたは経営戦略に精通した戦略コンサルタントです。{topic}について、ビジネス価値や市場機会、競合優位性の観点から分析し、実践的な戦略を提案してください。" },
       { name := "プロダクトマネージャー"
         personality := "ユーザー中心、イノベーション志向"
         debate_style := "ユーザー体験重視、データ分析、MVP思考"
         knowledge_focus := ["プロダクト戦略", "UX/UI", "市場調査", "データ分析"]
         system_template := "あなたは製品開発に精通したプロダクトマネージャーです。{topic}について、ユーザーのニーズや市場の要求を踏まえて、実用的な製品・サービスの観点から議論してください。" }]
  | ExpertiseArea.ACADEMIC => some
      [{ name := "学術研究者"
         personality := "厳密で客観的、エビデンス重視"
         debate_style := "文献引用、統計分析、仮説検証"
         knowledge_focus := ["学術論文", "研究手法", "統計分析", "理論構築"]
         system_template := "あなたは学術研究に精通した研究者です。{topic}について、既存の研究や理論を踏まえ、客観的なエビデンスに基づいて厳密な分析を行ってください。" },
       { name := "教育専門家"
         personality := "育成重視、長期的視点"
         debate_style := "教育理論、実践事例、成長プロセス重視"
         knowledge_focus := ["教育理論", "学習心理学", "カリキュラム設計", "教育技術"]
         system_template := "あなたは教育に精通した専門家です。{topic}について、学習効果や人材育成の観点から、理論と実践を組み合わせた教育的な視点で議論してください。" }]
  | ExpertiseArea.CREATIVE => some
      [{ name := "クリエイティブディレクター"
         personality := "創造的で直感的、美的センス重視"
         debate_style := "アイデア発想、デザイン思考、感性重視"
         knowledge_focus := ["デザイン", "ブランディング", "コミュニケーション", "トレンド"]
         system_template := "あなたは創造性に富んだクリエイティブディレクターです。{topic}について、デザインや美的価値、ブランド価値の観点から、創造的で革新的なアイデアを提案してください。" },
       { name := "イノベーター"
         personality := "挑戦的で破壊的、常識を疑う"
         debate_style := "アウトオブボックス、逆説的思考、実験精神"
         knowledge_focus := ["イノベーション理論", "創造的思考", "ブルーオーシャン", "ディスラプション"]
         system_template := "あなたは革新的思考を得意とするイノベーターです。{topic}について、既存の枠組みを超えた斬新なアプローチや、業界を変革する可能性のあるアイデアを提案してください。" }]
  | ExpertiseArea.SOCIAL => some
      [{ name := "社会学者"
         personality := "社会的影響重視、多様性尊重"
         debate_style := "社会構造分析、文化的背景考慮、包括性重視"
         knowledge_focus := ["社会構造", "文化人類学", "社会心理学", "社会問題"]
         system_template := "あなたは社会の仕組みに精通した社会学者です。{topic}について、社会への影響や文化的背景、多様性や包括性の観点から分析し、社会全体の利益を考慮した議論を行ってください。" }]
  | _ => none

/-- `AgentProfile` dataclass. -/
structure AgentProfile where
  name : String
  role : String
  expertise_area : ExpertiseArea
  personality : String
  system_message : String
  debate_style : String
  knowledge_focus : List String
  interaction_patterns : List String
deriving DecidableEq, Repr

/-- `AgentFactory._generate_interaction_patterns(debate_style)`. -/
def generate_interaction_patterns (debate_style : String) : List String :=
  (if pyIn "データ駆動" debate_style then
    ["具体的な数値や統計を要求する", "エビデンスの出典を確認する"] else [])
  ++ (if pyIn "ユーザー体験重視" debate_style then
    ["ユーザーの視点で問題を再定義する", "実際の使用例を求める"] else [])
  ++ (if pyIn "創造的" debate_style ∨ pyIn "革新的" debate_style then
    ["従来とは異なる視点を提示する", "アナロジーや比喩を活用する"] else [])
  ++ (if pyIn "リスク分析" debate_style then
    ["潜在的な問題点を指摘する", "代替案を提案する"] else [])

/-- `template.format(topic=topic)`: replace every occurrence of the
placeholder `{topic}` (7 codepoints) by `topic`, scanning left to right.
The fuel is the number of codepoints still to scan, which the scan never
exceeds. -/
def formatTopicAux (topicChars : List Char) : ℕ → List Char → List Char
  | 0, l => l
  | fuel + 1, l =>
    match l with
    | [] => []
    | c :: rest =>
      if List.isPrefixOf ("{topic}".toList) (c :: rest) then
        topicChars ++ formatTopicAux topicChars fuel (rest.drop 6)
      else c :: formatTopicAux topicChars fuel rest

/-- `template.format(topic=topic)`. -/
def pyFormatTopic (template topic : String) : String :=
  String.mk (formatTopicAux topic.toList template.toList.length template.toList)

/-- `AgentFactory._create_agent_profile(area, profile_data, topic)`;
`system_template.format(topic=topic)` substitutes the one placeholder. -/
def create_agent_profile (area : ExpertiseArea) (profile_data : ProfileTemplate)
    (topic : String) : AgentProfile :=
  { name := profile_data.name
    role := area.value ++ "_expert"
    expertise_area := area
    personality := profile_data.personality
    system_message := pyFormatTopic profile_data.system_template topic
    debate_style := profile_data.debate_style
    knowledge_focus := profile_data.knowledge_focus
    interaction_patterns := generate_interaction_patterns profile_data.debate_style }

/-- `TopicAnalyzer.expertise_keywords`, in the dict's insertion order (which
differs from the enumeration order: SOCIAL is listed fifth). -/
def expertise_keywords : List (ExpertiseArea × List String) :=
  [(ExpertiseArea.TECHNOLOGY,
    ["AI", "機械学習", "プログラミング", "システム", "アプリ", "ソフトウェア",
     "クラウド", "データベース", "セキュリティ", "アルゴリズム", "コード",
     "技術", "開発", "エンジニアリング", "デジタル", "IT"]),
   (ExpertiseArea.BUSINESS,
    ["ビジネス", "経営", "戦略", "マーケティング", "売上", "収益", "投資",
     "企業", "競合", "市場", "顧客", "ブランド", "商品", "サービス",
     "ROI", "KPI", "マネジメント", "組織"]),
   (ExpertiseArea.ACADEMIC,
    ["研究", "学術", "論文", "理論", "分析", "調査", "実験", "仮説",
     "統計", "データ", "エビデンス", "科学", "学問", "教育", "大学"]),
   (ExpertiseArea.CREATIVE,
    ["デザイン", "創造", "アート", "クリエイティブ", "イノベーション",
     "発想", "アイデア", "表現", "美的", "感性", "インスピレーション",
     "ブランディング", "コミュニケーション"]),
   (ExpertiseArea.SOCIAL,
    ["社会", "文化", "人々", "コミュニティ", "多様性", "包括性",
     "社会問題", "社会的影響", "倫理", "価値観", "人権", "平等"]),
   (ExpertiseArea.LEGAL,
    ["法律", "法的", "規制", "コンプライアンス", "契約", "権利",
     "法務", "裁判", "判例", "条文"]),
   (ExpertiseArea.MEDICAL,
    ["医療", "健康", "病気", "治療", "薬", "医学", "患者",
     "診断", "医師", "看護", "ヘルスケア"]),
   (ExpertiseArea.FINANCE,
    ["金融", "投資", "資金", "財務", "会計", "税務", "保険",
     "銀行", "資産", "リスク", "収支", "予算"]),
   (ExpertiseArea.ENVIRONMENT,
    ["環境", "持続可能", "エコ", "気候", "自然", "リサイクル",
     "省エネ", "温暖化", "生態系", "環境問題"]),
   (ExpertiseArea.EDUCATION,
    ["教育", "学習", "授業", "カリキュラム", "学校", "大学",
     "教師", "学生", "スキル", "能力開発", "人材育成"])]

/-- The fallback loop of `identify_relevant_expertise`: walk the members in
enumeration order, append each one not already present, stop as soon as the
list holds at least four areas. -/
def padAreas (acc : List ExpertiseArea) :
    List ExpertiseArea → List ExpertiseArea
  | [] => acc
  | a :: rest =>
    let acc' := if a ∈ acc then acc else acc ++ [a]
    if 4 ≤ acc'.length then acc' else padAreas acc' rest

/-- `TopicAnalyzer.identify_relevant_expertise(topic)`. -/
def identify_relevant_expertise (topic : String) : List ExpertiseArea :=
  let topic_lower := pyLower topic
  let relevance_scores := expertise_keywords.map fun p =>
    (p.1, (p.2.filter fun k => decide (pyIn (pyLower k) topic_lower)).length)
  let sorted_areas := sortByCountDesc relevance_scores
  let relevant_areas := ((sorted_areas.filter fun p => decide (0 < p.2)).map
    fun p => p.1)
  let relevant_areas :=
    if relevant_areas.length < 2 then padAreas relevant_areas ExpertiseArea.allList
    else relevant_areas
  relevant_areas.take 6

/-- The while-loop of `analyze_topic_and_generate_agents` that tops the
selection up to `num_agents`: take the first enumeration-order area whose
expertise is not yet used; if it has a template table entry append its first
profile and loop, otherwise `break` (areas without a template are not
skipped — the loop stops at the first one). -/
def padSelectedFuel (topic : String) (num_agents : ℕ) :
    ℕ → List AgentProfile → List AgentProfile
  | 0, selected => selected
  | fuel + 1, selected =>
    if selected.length < num_agents then
      match ExpertiseArea.allList.filter
          (fun a => decide (a ∉ selected.map fun ag => ag.expertise_area)) with
      | [] => selected
      | a :: _ =>
        match agent_templates a with
        | some (p :: _) => padSelectedFuel topic num_agents fuel
            (selected ++ [create_agent_profile a p topic])
        | _ => selected
    else selected

/-- The while-loop, started with enough fuel: every pass through the loop
body appends exactly one profile, so it runs at most
`num_agents - len(selected)` times. -/
def padSelected (topic : String) (num_agents : ℕ)
    (selected : List AgentProfile) : List AgentProfile :=
  padSelectedFuel topic num_agents (num_agents - selected.length) selected

/-- `AgentFactory.analyze_topic_and_generate_agents(topic, num_agents)`.  The
first loop keeps, in order, every relevant area that has a template table
entry (`filterMap` is that loop; template lists are never empty, the
`some []` arm exists only to make the match total). -/
def analyze_topic_and_generate_agents (topic : String) (num_agents : ℕ) :
    List AgentProfile :=
  let relevant_areas := identify_relevant_expertise topic
  let selected := (relevant_areas.take num_agents).filterMap fun area =>
    match agent_templates area with
    | some (p :: _) => some (create_agent_profile area p topic)
    | _ => none
  padSelected topic num_agents selected

/-! ### The schema-validated arbiter loop (src/main_direct.py, `run`)
The LLM is the explicit oracle `complete` (the reply to a message list) and
the schema validator (`validate_json_schema` against `schemas/decision_v1.json`,
which either returns the parsed decision or raises) is the explicit
`validate`, returning `Except String D` with the exception text in the error.
`for attempt in range(5)` with a `for/else` raising `RuntimeError` becomes
structural recursion on the remaining fuel, started at 5. -/

/-- One chat message. -/
structure Message where
  role : String
  content : String
deriving DecidableEq, Repr

/-- The corrective content up to the interpolated validation error. -/
def correctivePrefix : String := "直前の出力はスキーマ違反です。修正して再出力。\nエラー: "

/-- The corrective content after the interpolated validation error. -/
def correctiveSuffix : String :=
  "\n必須条件: actions>=1, risks>=1, sources>=1。\nsources は checker の EvidencePlan をもとに \x7b\"query\":\"...\"\x7d 形式でも良い。\nJSONのみを返し、不要な文章は書かない。"

/-- The corrective user turn appended after a schema-validation failure,
with the validation error `e` interpolated. -/
def correctiveMessage (e : String) : Message :=
  { role := "user"
    content := correctivePrefix ++ e ++ correctiveSuffix }

/-- The message of the `RuntimeError` raised when all attempts fail. -/
def fatalDecisionError : String := "decision_v1 に適合できませんでした"

/-- The arbiter retry loop: returns how many completion attempts were made,
the final message list, and either the validated decision or the fatal
error. -/
def arbiterLoop {D : Type} (complete : List Message → String)
    (validate : String → Except String D) :
    ℕ → List Message → ℕ × List Message × Except String D
  | 0, msgs => (0, msgs, Except.error fatalDecisionError)
  | fuel + 1, msgs =>
    let out := complete msgs
    match validate out with
    | Except.ok d => (1, msgs, Except.ok d)
    | Except.error e =>
      match arbiterLoop complete validate fuel (msgs ++ [correctiveMessage e]) with
      | (n, ms, r) => (n + 1, ms, r)

/-- The arbiter step of `run`: the loop with 5 attempts of fuel. -/
def run_arbiter {D : Type} (complete : List Message → String)
    (validate : String → Except String D) (messages : List Message) :
    ℕ × List Message × Except String D :=
  arbiterLoop complete validate 5 messages

/-- The corrective messages the loop appends while every attempt fails. -/
def arbiterFailTrace {D : Type} (complete : List Message → String)
    (validate : String → Except String D) :
    ℕ → List Message → List Message
  | 0, _ => []
  | fuel + 1, msgs =>
    match validate (complete msgs) with
    | Except.ok _ => []
    | Except.error e =>
      correctiveMessage e
        :: arbiterFailTrace complete validate fuel (msgs ++ [correctiveMessage e])

/-! ### Source-query resolution (src/utils/source_resolver.py,
`resolve_queries_to_urls`)
An input source entry is a JSON object; the keys the function reads
(`url`, `query`) and the keys an enriched replacement carries
(`url`, `title`, `quote`) are modelled as optional fields, `none` standing
for an absent key.  The Tavily POST request is the oracle `fetch`: an
exception anywhere in the request is `Except.error ()`, otherwise
`data.get("results", [])` with each result's `url`/`title`/`content`
already defaulted to `""` as `.get(•, "")` does. -/

/-- A source entry. -/
structure SourceEntry where
  url : Option String
  query : Option String
  title : Option String
  quote : Option String
deriving DecidableEq, Repr

/-- One Tavily search result, fields defaulted as `.get(•, "")`. -/
structure TavilyResult where
  url : String
  title : String
  content : String
deriving DecidableEq, Repr

/-- The body of the `for s in sources` loop, as the entries it appends for
`s`: the entry itself when it has a `url` key or the request fails or finds
nothing, the enriched replacement on success, and nothing at all — the
`continue` — when there is no `url` key and no truthy `query`. -/
def resolveEntry (fetch : String → Except Unit (List TavilyResult))
    (s : SourceEntry) : List SourceEntry :=
  if s.url.isSome then [s]
  else match s.query with
    | none => []
    | some q =>
      if q = "" then []
      else match fetch q with
        | Except.error _ => [s]
        | Except.ok results =>
          match results with
          | [] => [s]
          | top :: _ =>
            [{ url := some top.url
               query := none
               title := some (if top.title = "" then q else top.title)
               quote := some (String.mk (top.content.toList.take 400)) }]

/-- The whole loop over `sources`. -/
def resolveList (fetch : String → Except Unit (List TavilyResult)) :
    List SourceEntry → List SourceEntry
  | [] => []
  | s :: rest => resolveEntry fetch s ++ resolveList fetch rest

/-- `resolve_queries_to_urls(sources)`; `api_key` is
`os.getenv("TAVILY_API_KEY")` (`none` = unset) and `if not api_key` is also
taken for an empty string. -/
def resolve_queries_to_urls (api_key : Option String)
    (fetch : String → Except Unit (List TavilyResult))
    (sources : List SourceEntry) : List SourceEntry :=
  match api_key with
  | none => sources
  | some k => if k = "" then sources else resolveList fetch sources

/-! ### Concrete inputs used by the theorems below -/

/-- An opinion of the given type (the classifier fields the analysers never
read are fixed arbitrarily). -/
def mkOp (t : OpinionType) : Opinion :=
  { agent_name := "a"
    content := "c"
    opinion_type := t
    confidence := 1
    evidence := []
    related_topics := []
    timestamp := "t" }

/-- The opinion list of the consensus example: agree, agree, neutral,
disagree. -/
def consensusExampleOps : List Opinion :=
  [mkOp OpinionType.AGREE, mkOp OpinionType.AGREE, mkOp OpinionType.NEUTRAL,
   mkOp OpinionType.DISAGREE]

/-- Twenty opinions — 11 agree, 1 neutral, 8 disagree — whose exact mean
11.5/20 = 0.575 is not representable in binary64: the program rounds the
double just below 0.575 down to 0.57, where exact-rational half-even
rounding of 0.575 would give 0.58. -/
def consensusDriftOps : List Opinion :=
  List.replicate 11 (mkOp OpinionType.AGREE) ++ [mkOp OpinionType.NEUTRAL]
    ++ List.replicate 8 (mkOp OpinionType.DISAGREE)

/-- Two strongly-agree and two strongly-disagree opinions. -/
def strongSplitOps : List Opinion :=
  [mkOp OpinionType.STRONGLY_AGREE, mkOp OpinionType.STRONGLY_AGREE,
   mkOp OpinionType.STRONGLY_DISAGREE, mkOp OpinionType.STRONGLY_DISAGREE]

/-- One agree and one neutral opinion. -/
def agreeNeutralOps : List Opinion :=
  [mkOp OpinionType.AGREE, mkOp OpinionType.NEUTRAL]

/-- Four agents of which the first three choose "A" and the last "B". -/
def voteChoiceAAAB : String → String :=
  fun a => if a = "a4" then "B" else "A"

/-- Everyone votes "A". -/
def voteChoiceAllA : String → String := fun _ => "A"

/-- A completion oracle with a fixed reply. -/
def completeConst : List Message → String := fun _ => "not json"

/-- A validator that rejects every payload. -/
def validateAlwaysFails : String → Except String Unit :=
  fun _ => Except.error "schema violation"

/-- A fetch oracle whose every request raises. -/
def fetchFail : String → Except Unit (List TavilyResult) :=
  fun _ => Except.error ()

/-- A source entry with no keys at all (in particular neither `url` nor
`query`). -/
def emptyEntry : SourceEntry :=
  { url := none, query := none, title := none, quote := none }

/-- A source entry that already carries a `url` key. -/
def urlEntry : SourceEntry :=
  { url := some "https://example.org", query := none, title := none, quote := none }

/-- Whether the resolution loop keeps an entry: it has a `url` key or a
truthy (non-empty) `query`. -/
def keepable (s : SourceEntry) : Bool :=
  s.url.isSome || decide (s.query.getD "" ≠ "")

/-- An output entry of the enriched shape: a `url`/`title`/`quote`
replacement with the `query` key gone. -/
def isEnrichedReplacement (r : SourceEntry) : Prop :=
  r.url.isSome = true ∧ r.query = none ∧ r.title.isSome = true
    ∧ r.quote.isSome = true

/-! ## Theorems -/

/-! ### Helper lemmas for the consensus level -/

/-- The weighted numerator of `_calculate_consensus_level` is the sum of the
per-opinion weights of the specification. -/
theorem weight_sum_eq (ops : List Opinion) :
    (ops.map fun op => opinionWeight op.opinion_type).sum
      = ((ops.filter fun op => decide (op.opinion_type = OpinionType.AGREE
            ∨ op.opinion_type = OpinionType.STRONGLY_AGREE)).length : ℚ)
        + (countOpinionType ops OpinionType.NEUTRAL : ℚ) * (1/2) := by
  induction ops with
  | nil => simp [countOpinionType]
  | cons op rest ih =>
    have hmap : (List.map (fun o => opinionWeight o.opinion_type) (op :: rest)).sum
        = opinionWeight op.opinion_type
          + (List.map (fun o => opinionWeight o.opinion_type) rest).sum := by
      simp
    rw [hmap, ih]
    cases h : op.opinion_type <;>
      simp [h, opinionWeight, List.filter_cons, countOpinionType] <;> ring

/-- C8: with no TAVILY_API_KEY configured, `resolve_queries_to_urls` returns
its input source list unchanged — same entries, same order, same length —
whatever the fetch oracle would have answered and whatever the entries
contain (including query-only entries). -/
theorem C8_no_api_key_returns_input_unchanged :
    ∀ (fetch : String → Except Unit (List TavilyResult))
      (sources : List SourceEntry),
      resolve_queries_to_urls none fetch sources = sources :=
  fun _ _ => rfl

/-- Rounding the exact mean 0.625 to two decimals, half to even. -/
theorem pyRound2_five_eighths : pyRound2 (5/8 : ℚ) = 31/50 := by
  have hf : (⌊(5/8 : ℚ) * 100⌋ : ℤ) = 62 := by
    rw [Int.floor_eq_iff]
    norm_num
  simp only [pyRound2, pyRoundHalfEvenZ, hf]
  norm_num

/-- 5/8 lies in [2^(-1), 2^0). -/
theorem log2_five_eighths : Int.log 2 ((5:ℚ)/8) = -1 := by
  have h1 : (-1 : ℤ) ≤ Int.log 2 ((5:ℚ)/8) := by
    rw [← Int.zpow_le_iff_le_log (by norm_num) (by norm_num)]
    norm_num
  have h2 : Int.log 2 ((5:ℚ)/8) < 0 := by
    rw [← Int.lt_zpow_iff_log_lt (by norm_num) (by norm_num)]
    norm_num
  omega

/-- 23/40 lies in [2^(-1), 2^0). -/
theorem log2_twentythree_fortieths : Int.log 2 ((23:ℚ)/40) = -1 := by
  have h1 : (-1 : ℤ) ≤ Int.log 2 ((23:ℚ)/40) := by
    rw [← Int.zpow_le_iff_le_log (by norm_num) (by norm_num)]
    norm_num
  have h2 : Int.log 2 ((23:ℚ)/40) < 0 := by
    rw [← Int.lt_zpow_iff_log_lt (by norm_num) (by norm_num)]
    norm_num
  omega

/-- Half-even rounding fixes the integer 5·2^50. -/
theorem pyRoundHalfEvenZ_dyadic_example :
    pyRoundHalfEvenZ (5629499534213120 : ℚ) = 5629499534213120 := by
  have hf : ⌊(5629499534213120 : ℚ)⌋ = 5629499534213120 := by
    rw [Int.floor_eq_iff]
    norm_num
  simp only [pyRoundHalfEvenZ, hf]
  norm_num

/-- The significand scaling of 23/40: 23/40·2^53 = 25895697857380352/5 has
fractional part 2/5, so it rounds down. -/
theorem pyRoundHalfEvenZ_drift_example :
    pyRoundHalfEvenZ ((25895697857380352 : ℚ)/5) = 5179139571476070 := by
  have hf : ⌊(25895697857380352 : ℚ)/5⌋ = 5179139571476070 := by
    rw [Int.floor_eq_iff]
    norm_num
  simp only [pyRoundHalfEvenZ, hf]
  norm_num

/-- 0.625 = 5/8 is an exact double. -/
theorem fl64_five_eighths : fl64 ((5:ℚ)/8) = 5/8 := by
  have habs : |(5:ℚ)/8| = 5/8 := by
    rw [abs_of_pos]
    norm_num
  simp only [fl64, habs, log2_five_eighths]
  rw [if_neg (by norm_num)]
  norm_num [pyRoundHalfEvenZ_dyadic_example]

/-- 0.575 = 23/40 is not an exact double: the nearest double is
2589569785738035/2^52, slightly below it. -/
theorem fl64_drift : fl64 ((23:ℚ)/40) = 2589569785738035/4503599627370496 := by
  have habs : |(23:ℚ)/40| = 23/40 := by
    rw [abs_of_pos]
    norm_num
  simp only [fl64, habs, log2_twentythree_fortieths]
  rw [if_neg (by norm_num)]
  norm_num [pyRoundHalfEvenZ_drift_example]

/-- Rounding the double nearest 0.575 to two decimals gives 0.57 (its exact
value is below the 57.5/100 tie point). -/
theorem pyRound2_drift :
    pyRound2 ((2589569785738035 : ℚ)/4503599627370496) = 57/100 := by
  have hf : ⌊(2589569785738035 : ℚ)/4503599627370496 * 100⌋ = 57 := by
    rw [Int.floor_eq_iff]
    norm_num
  simp only [pyRound2, pyRoundHalfEvenZ, hf]
  norm_num

/-- Rounding the exact rational 0.575 to two decimals half-to-even would
give 0.58 instead — the value the idealized (non-float) reading computes. -/
theorem pyRound2_exact_575 : pyRound2 ((23:ℚ)/40) = 29/50 := by
  have hf : ⌊(23:ℚ)/40 * 100⌋ = 57 := by
    rw [Int.floor_eq_iff]
    norm_num
  simp only [pyRound2, pyRoundHalfEvenZ, hf]
  rw [if_neg (by norm_num), if_neg (by norm_num), if_neg (by decide)]
  norm_num

/-- The value the code computes on [agree, agree, neutral, disagree]. -/
theorem consensus_concrete_value :
    calculate_consensus_level consensusExampleOps = 31/50 := by
  have harg : calculate_consensus_level consensusExampleOps
      = pyRound2 (fl64 (5/8)) := by
    simp [calculate_consensus_level, consensusExampleOps, mkOp, countOpinionType,
      List.filter]
    norm_num
  rw [harg, fl64_five_eighths, pyRound2_five_eighths]

/-- The value the code computes on 11 agree, 1 neutral, 8 disagree. -/
theorem consensus_drift_value :
    calculate_consensus_level consensusDriftOps = 57/100 := by
  have hpos : (consensusDriftOps.filter fun op =>
      decide (op.opinion_type = OpinionType.AGREE
        ∨ op.opinion_type = OpinionType.STRONGLY_AGREE)).length = 11 := by decide
  have hneu : countOpinionType consensusDriftOps OpinionType.NEUTRAL = 1 := by
    decide
  have hlen : consensusDriftOps.length = 20 := by decide
  simp only [calculate_consensus_level, hpos, hneu, hlen]
  rw [if_neg (by norm_num)]
  have harg : (((11:ℕ) : ℚ) * 1 + ((1:ℕ) : ℚ) * (1/2)
      + (((20 - 11 - 1 : ℕ)) : ℚ) * 0) / ((20:ℕ) : ℚ) = 23/40 := by norm_num
  rw [harg, fl64_drift, pyRound2_drift]

/-- C2 counterexample: on [agree, agree, neutral, disagree] the code does
not return 0.63 — Python `round` rounds the exact mean 0.625 half-to-even,
giving 0.62 (= 31/50), not the half-up 0.63 the claim computes. -/
theorem C2_consensus_not_063 :
    calculate_consensus_level consensusExampleOps ≠ 63/100 := by
  rw [consensus_concrete_value]
  norm_num

/-- C2 (amended): on [agree, agree, neutral, disagree] the consensus level
is 0.62 — the mean 0.625 is an exact double and Python round() takes the
half-to-even branch — not the 0.63 the spec computes.  In general the
consensus level is the binary64 value of the mean of the per-opinion weights
{agree/strongly_agree 1.0, neutral 0.5, disagree/strongly_disagree 0.0},
rounded to two decimals half to even; because the division rounds to a
double first, this can differ from rounding the exact mean: 11 agree,
1 neutral and 8 disagree (mean 0.575) yield 0.57, where exact-rational
half-even rounding would yield 0.58. -/
theorem C2_consensus_level_is_rounded_weight_mean :
    calculate_consensus_level consensusExampleOps = 31/50
    ∧ (∀ ops : List Opinion,
        calculate_consensus_level ops = consensusLevelSpec ops)
    ∧ calculate_consensus_level consensusDriftOps = 57/100
    ∧ pyRound2 ((23:ℚ)/40) = 29/50 := by
  refine ⟨consensus_concrete_value, fun ops => ?_, consensus_drift_value,
    pyRound2_exact_575⟩
  rcases ops with _ | ⟨op, rest⟩
  · simp [calculate_consensus_level, consensusLevelSpec, pyRound2,
      pyRoundHalfEvenZ, fl64]
  · unfold calculate_consensus_level consensusLevelSpec
    rw [weight_sum_eq]
    simp only [List.length_cons, Nat.succ_ne_zero, if_false]
    congr 2
    ring

/-! ### The strongly-disagree branch of the classifier -/

/-- Every strong-disagreement phrase contains the plain-disagreement trigger
`反対`, so a haystack matching the strong-disagreement set also matches the
plain-disagreement set. -/
theorem strong_disagree_match_implies_disagree_match (hay : String)
    (h : pyAnyIn strongDisagreeWords hay = true) :
    pyAnyIn disagreeWords hay = true := by
  simp only [pyAnyIn, List.any_eq_true, decide_eq_true_eq] at h ⊢
  obtain ⟨w, hw, hin⟩ := h
  simp only [strongDisagreeWords, List.mem_cons, List.not_mem_nil, or_false] at hw
  refine ⟨"反対", by simp [disagreeWords], ?_⟩
  rcases hw with rfl | rfl | rfl
  · exact pyIn_trans (by decide) hin
  · exact pyIn_trans (by decide) hin
  · exact pyIn_trans (by decide) hin

/-- C4: the opinion classifier can never return strongly_disagree — the
strong-disagreement phrases are checked only after the plain-disagreement
branch, and each of them contains a plain-disagreement trigger word, so the
fourth branch of the elif chain is unreachable for every agent name, every
response and every timestamp. -/
theorem C4_strongly_disagree_unreachable :
    ∀ (agent_name response now : String),
      (extract_opinion_from_response agent_name response now).opinion_type
        ≠ OpinionType.STRONGLY_DISAGREE := by
  intro agent_name response now
  unfold extract_opinion_from_response
  rcases hsd : pyAnyIn strongDisagreeWords (pyLower response) with _ | _
  · simp only [hsd]
    split <;> try simp
    split <;> try simp
    split <;> simp
  · have hd := strong_disagree_match_implies_disagree_match _ hsd
    simp only [hd]
    split <;> try simp
    split <;> simp

/-- C9: the classifier's confidence is 0.5 plus 0.1 for each of the at most
five matched confidence-indicator words, capped at 1.0; in particular it is
always within [0.5, 1.0], never below 0.5. -/
theorem C9_confidence_bounds :
    ∀ (agent_name response now : String),
      (extract_opinion_from_response agent_name response now).confidence
          = min (1/2 + (1/10) * (((confidenceIndicators.filter
              fun w => decide (pyIn w (pyLower response))).length : ℚ)) ) 1
        ∧ (confidenceIndicators.filter
            fun w => decide (pyIn w (pyLower response))).length ≤ 5
        ∧ 1/2 ≤ (extract_opinion_from_response agent_name response now).confidence
        ∧ (extract_opinion_from_response agent_name response now).confidence ≤ 1 := by
  intro agent_name response now
  have hval : (extract_opinion_from_response agent_name response now).confidence
      = min (1/2 + (1/10) * (((confidenceIndicators.filter
          fun w => decide (pyIn w (pyLower response))).length : ℚ)) ) 1 := rfl
  have hlen : (confidenceIndicators.filter
      fun w => decide (pyIn w (pyLower response))).length ≤ 5 := by
    have := List.length_filter_le
      (fun w => decide (pyIn w (pyLower response))) confidenceIndicators
    simpa [confidenceIndicators] using this
  refine ⟨hval, hlen, ?_, ?_⟩
  · rw [hval]
    refine le_min ?_ (by norm_num)
    have : (0:ℚ) ≤ ((confidenceIndicators.filter
        fun w => decide (pyIn w (pyLower response))).length : ℚ) := by positivity
    linarith
  · rw [hval]
    exact min_le_right _ _

/-! ### Conflict level -/

/-- The four non-neutral counts of `analyze_conflict_level` add up to the
number of non-neutral opinions. -/
theorem count_non_neutral (ops : List Opinion) :
    countOpinionType ops OpinionType.STRONGLY_DISAGREE
      + countOpinionType ops OpinionType.DISAGREE
      + countOpinionType ops OpinionType.AGREE
      + countOpinionType ops OpinionType.STRONGLY_AGREE
    = (ops.filter fun op =>
        decide (op.opinion_type ≠ OpinionType.NEUTRAL)).length := by
  induction ops with
  | nil => simp [countOpinionType]
  | cons op rest ih =>
    simp only [countOpinionType, List.filter_cons, decide_not] at ih ⊢
    cases h : op.opinion_type <;> simp [h] <;> omega

/-- A positive disagree count or a positive strongly-disagree count is the
same as some negative opinion being present. -/
theorem negative_count_pos_iff (ops : List Opinion) :
    (0 < countOpinionType ops OpinionType.DISAGREE
      ∨ 0 < countOpinionType ops OpinionType.STRONGLY_DISAGREE)
    ↔ (ops.any fun op => decide (op.opinion_type = OpinionType.DISAGREE
        ∨ op.opinion_type = OpinionType.STRONGLY_DISAGREE)) = true := by
  simp only [countOpinionType, List.length_pos, ← List.countP_eq_length_filter,
    List.countP_pos_iff, List.any_eq_true, decide_eq_true_eq]
  constructor
  · rintro (⟨op, hm, h⟩ | ⟨op, hm, h⟩)
    · exact ⟨op, hm, Or.inl h⟩
    · exact ⟨op, hm, Or.inr h⟩
  · rintro ⟨op, hm, h | h⟩
    · exact Or.inl ⟨op, hm, h⟩
    · exact Or.inr ⟨op, hm, h⟩

/-- C6: [strongly_agree, strongly_agree, strongly_disagree, strongly_disagree]
is STRONG_CONFLICT, [agree, neutral] is HARMONY, and in general the analyser
returns STRONG_CONFLICT iff the strong opinions reach half the list with both
strong polarities present, else MODERATE_CONFLICT iff the non-neutral
opinions reach 0.6 of the list, else MILD_DISAGREEMENT iff some negative
opinion exists, else HARMONY — and always HARMONY below two opinions. -/
theorem C6_conflict_level_rule :
    analyze_conflict_level strongSplitOps = ConflictLevel.STRONG_CONFLICT
    ∧ analyze_conflict_level agreeNeutralOps = ConflictLevel.HARMONY
    ∧ ∀ ops : List Opinion,
        analyze_conflict_level ops = conflictLevelSpec ops := by
  refine ⟨?_, ?_, fun ops => ?_⟩
  · have hsd : countOpinionType strongSplitOps OpinionType.STRONGLY_DISAGREE = 2 := by
      decide
    have hsa : countOpinionType strongSplitOps OpinionType.STRONGLY_AGREE = 2 := by
      decide
    have hlen : strongSplitOps.length = 4 := by decide
    simp only [analyze_conflict_level, hsd, hsa, hlen]
    norm_num
  · have hsd : countOpinionType agreeNeutralOps OpinionType.STRONGLY_DISAGREE = 0 := by
      decide
    have hd : countOpinionType agreeNeutralOps OpinionType.DISAGREE = 0 := by decide
    have ha : countOpinionType agreeNeutralOps OpinionType.AGREE = 1 := by decide
    have hsa : countOpinionType agreeNeutralOps OpinionType.STRONGLY_AGREE = 0 := by
      decide
    have hlen : agreeNeutralOps.length = 2 := by decide
    simp only [analyze_conflict_level, hsd, hd, ha, hsa, hlen]
    norm_num
  · simp only [analyze_conflict_level, conflictLevelSpec, count_non_neutral,
      negative_count_pos_iff]

/-! ### Voting -/

/-- Rounding 0.5 to two decimals changes nothing. -/
theorem pyRound2_half : pyRound2 (1/2 : ℚ) = 1/2 := by
  have hf : (⌊(1/2 : ℚ) * 100⌋ : ℤ) = 50 := by
    rw [Int.floor_eq_iff]
    norm_num
  simp only [pyRound2, pyRoundHalfEvenZ, hf]
  norm_num

/-- The margin of the tallies A:3, B:1 out of 4 votes. -/
theorem margin_concrete : calculate_margin [("A", 3), ("B", 1)] 4 = 1/2 := by
  have hmc : mostCommon [("A", 3), ("B", 1)] = [("A", 3), ("B", 1)] := by decide
  have h2 : ¬ ([("A", 3), ("B", 1)] : List (String × ℕ)).length < 2 := by decide
  simp only [calculate_margin, hmc, if_neg h2]
  norm_num [pyRound2_half]

/-- C7: with four agents voting A, A, A, B the tallies are A:3, B:1, the
winner is A and the margin is round((3-1)/4, 2) = 0.5; and whenever fewer
than two distinct options received votes the margin is 1.0. -/
theorem C7_vote_margin_and_winner :
    (conduct_vote ["a1", "a2", "a3", "a4"] "q" ["A", "B"] voteChoiceAAAB).results
        = [("A", 3), ("B", 1)]
    ∧ (conduct_vote ["a1", "a2", "a3", "a4"] "q" ["A", "B"] voteChoiceAAAB).winner
        = some "A"
    ∧ (conduct_vote ["a1", "a2", "a3", "a4"] "q" ["A", "B"] voteChoiceAAAB).margin
        = 1/2
    ∧ ∀ (vote_counts : List (String × ℕ)) (total_votes : ℕ),
        vote_counts.length < 2 →
          calculate_margin vote_counts total_votes = 1 := by
  refine ⟨by decide, by decide, ?_, ?_⟩
  · have h : (conduct_vote ["a1", "a2", "a3", "a4"] "q" ["A", "B"]
        voteChoiceAAAB).margin = calculate_margin [("A", 3), ("B", 1)] 4 := rfl
    rw [h, margin_concrete]
  · intro vote_counts total_votes h
    simp only [calculate_margin, if_pos h]

/-- The voting loop on pairwise-distinct agent names builds one dict entry
per agent, in order. -/
theorem votes_foldl_eq_map (choice : String → String) :
    ∀ (agents : List String) (d : List (String × String)),
      agents.Nodup → (∀ a ∈ agents, ∀ p ∈ d, p.1 ≠ a) →
      agents.foldl (fun d a => dictInsert d a (choice a)) d
        = d ++ agents.map fun a => (a, choice a) := by
  intro agents
  induction agents with
  | nil => simp
  | cons a rest ih =>
    intro d hnd hdisj
    have hins : dictInsert d a (choice a) = d ++ [(a, choice a)] := by
      unfold dictInsert
      rw [if_neg]
      intro hcon
      rw [List.any_eq_true] at hcon
      obtain ⟨p, hp, he⟩ := hcon
      exact hdisj a (List.mem_cons_self a rest) p hp (of_decide_eq_true he)
    have hrest : rest.Nodup := (List.nodup_cons.mp hnd).2
    have hna : a ∉ rest := (List.nodup_cons.mp hnd).1
    simp only [List.foldl_cons, hins]
    rw [ih (d ++ [(a, choice a)]) hrest ?_]
    · simp
    · intro b hb p hp
      rcases List.mem_append.mp hp with hd' | hsing
      · exact hdisj b (List.mem_cons_of_mem _ hb) p hd'
      · have hpa : p = (a, choice a) := by simpa using hsing
        subst hpa
        intro hfst
        have hab : a = b := hfst
        subst hab
        exact hna hb

/-- C10: for any non-empty list of pairwise-distinct agent names, any
non-empty option list and every possible outcome of the per-agent random
choices, the participation rate is exactly 1.0: each agent gets exactly one
dict entry, so total_votes equals the number of agents. -/
theorem C10_participation_rate_always_one :
    ∀ (agents : List String) (question : String) (options : List String)
      (choice : String → String),
      agents ≠ [] → agents.Nodup → options ≠ [] →
      (conduct_vote agents question options choice).participation_rate = 1 := by
  intro agents question options choice hne hnd _hopts
  have hbv : buildVotes agents choice = agents.map fun a => (a, choice a) := by
    have h := votes_foldl_eq_map choice agents [] hnd (by simp)
    simpa [buildVotes] using h
  have hlen : agents.length ≠ 0 := fun h => hne (List.length_eq_zero.mp h)
  simp only [conduct_vote, hbv, List.length_map]
  rw [if_neg hlen, div_self]
  exact Nat.cast_ne_zero.mpr hlen

/-- C10 witness: two distinct agents, one option, everyone voting it. -/
theorem C10_witness :
    ((["x", "y"] : List String) ≠ [])
    ∧ (["x", "y"] : List String).Nodup
    ∧ ((["A"] : List String) ≠ [])
    ∧ (conduct_vote ["x", "y"] "q" ["A"] voteChoiceAllA).participation_rate = 1 :=
  ⟨by decide, by decide, by decide,
    C10_participation_rate_always_one ["x", "y"] "q" ["A"] voteChoiceAllA
      (by decide) (by decide) (by decide)⟩

/-! ### Source-query resolution -/

/-- An entry with a `url` key or a truthy `query` resolves to exactly one
output entry: itself, or an enriched replacement. -/
theorem resolveEntry_keepable (fetch : String → Except Unit (List TavilyResult))
    (s : SourceEntry) (h : keepable s = true) :
    ∃ r, resolveEntry fetch s = [r] ∧ (r = s ∨ isEnrichedReplacement r) := by
  by_cases hu : s.url.isSome
  · exact ⟨s, by simp [resolveEntry, hu], Or.inl rfl⟩
  · have hq' : s.query.getD "" ≠ "" := by
      simp only [keepable, Bool.or_eq_true, decide_eq_true_eq] at h
      rcases h with h | h
      · exact absurd h hu
      · exact h
    rcases hq : s.query with _ | q
    · rw [hq] at hq'
      simp at hq'
    · rw [hq] at hq'
      simp only [Option.getD_some] at hq'
      rcases hf : fetch q with e | results
      · exact ⟨s, by simp [resolveEntry, hu, hq, hq', hf], Or.inl rfl⟩
      · rcases results with _ | ⟨top, rest⟩
        · exact ⟨s, by simp [resolveEntry, hu, hq, hq', hf], Or.inl rfl⟩
        · refine ⟨{ url := some top.url
                    query := none
                    title := some (if top.title = "" then q else top.title)
                    quote := some (String.mk (top.content.toList.take 400)) },
            by simp [resolveEntry, hu, hq, hq', hf], Or.inr ?_⟩
          exact ⟨rfl, rfl, rfl, rfl⟩

/-- The relation of C5: positionally, each output entry is the input entry
unchanged or an enriched replacement for it. -/
theorem resolveList_forall₂ (fetch : String → Except Unit (List TavilyResult)) :
    ∀ sources : List SourceEntry, sources.all keepable = true →
      List.Forall₂ (fun s r => r = s ∨ isEnrichedReplacement r) sources
        (resolveList fetch sources) := by
  intro sources
  induction sources with
  | nil => exact fun _ => List.Forall₂.nil
  | cons s rest ih =>
    intro hall
    rw [List.all_cons, Bool.and_eq_true] at hall
    obtain ⟨hs, hrest⟩ := hall
    obtain ⟨r, hr, hor⟩ := resolveEntry_keepable fetch s hs
    show List.Forall₂ _ (s :: rest) (resolveEntry fetch s ++ resolveList fetch rest)
    rw [hr]
    exact List.Forall₂.cons hor (ih hrest)

/-- Any list is positionally related to itself by the C5 relation. -/
theorem forall₂_self_or_enriched (l : List SourceEntry) :
    List.Forall₂ (fun s r => r = s ∨ isEnrichedReplacement r) l l := by
  induction l with
  | nil => exact List.Forall₂.nil
  | cons x xs ih => exact List.Forall₂.cons (Or.inl rfl) ih

/-- C5 counterexample: with an API key configured, an entry with neither a
`url` key nor a truthy `query` is silently skipped (`continue`), so the
output has fewer entries than the input — the claim that no input entry is
ever dropped is false. -/
theorem C5_entry_dropped :
    (resolve_queries_to_urls (some "k") fetchFail [emptyEntry]).length
      ≠ ([emptyEntry] : List SourceEntry).length := by decide

/-- C5 (amended): entries that carry a `url` key or a truthy (non-empty)
`query` are never dropped — whatever the API-key configuration and whatever
each request does, the output then has exactly one entry per input entry, in
order, each either the original unchanged or an enriched url/title/quote
replacement; an entry with neither is skipped when a key is configured. -/
theorem C5_keepable_entries_never_dropped :
    ∀ (api_key : Option String)
      (fetch : String → Except Unit (List TavilyResult))
      (sources : List SourceEntry),
      sources.all keepable = true →
      List.Forall₂ (fun s r => r = s ∨ isEnrichedReplacement r) sources
          (resolve_queries_to_urls api_key fetch sources)
        ∧ (resolve_queries_to_urls api_key fetch sources).length
            = sources.length := by
  intro api_key fetch sources hall
  have hmain : List.Forall₂ (fun s r => r = s ∨ isEnrichedReplacement r) sources
      (resolve_queries_to_urls api_key fetch sources) := by
    rcases api_key with _ | k
    · exact forall₂_self_or_enriched sources
    · by_cases hk : k = ""
      · simp only [resolve_queries_to_urls, if_pos hk]
        exact forall₂_self_or_enriched sources
      · simp only [resolve_queries_to_urls, if_neg hk]
        exact resolveList_forall₂ fetch sources hall
  exact ⟨hmain, hmain.length_eq.symm⟩

/-- C5 witness: a single entry that already has a url key survives the
resolution pass untouched. -/
theorem C5_witness :
    (([urlEntry] : List SourceEntry).all keepable = true)
    ∧ (List.Forall₂ (fun s r => r = s ∨ isEnrichedReplacement r) [urlEntry]
          (resolve_queries_to_urls (some "k") fetchFail [urlEntry])
        ∧ (resolve_queries_to_urls (some "k") fetchFail [urlEntry]).length
            = ([urlEntry] : List SourceEntry).length) :=
  ⟨by decide,
    C5_keepable_entries_never_dropped (some "k") fetchFail [urlEntry] (by decide)⟩

/-! ### The arbiter retry loop -/

/-- Each corrective message quotes the validation error it was built from:
the error text occurs verbatim in the message content. -/
theorem pyIn_correctiveMessage (e : String) :
    pyIn e (correctiveMessage e).content :=
  ⟨correctivePrefix.toList, correctiveSuffix.toList, rfl⟩

/-- When every completion fails validation, the loop burns all its fuel, one
attempt per unit, appends one corrective message per attempt and ends in the
fatal error. -/
theorem arbiterLoop_all_fail {D : Type} (complete : List Message → String)
    (validate : String → Except String D)
    (h : ∀ s, ∃ e, validate s = Except.error e) :
    ∀ (fuel : ℕ) (msgs : List Message),
      arbiterLoop complete validate fuel msgs
        = (fuel, msgs ++ arbiterFailTrace complete validate fuel msgs,
            Except.error fatalDecisionError) := by
  intro fuel
  induction fuel with
  | zero =>
    intro msgs
    simp [arbiterLoop, arbiterFailTrace]
  | succ n ih =>
    intro msgs
    obtain ⟨e, he⟩ := h (complete msgs)
    simp only [arbiterLoop, arbiterFailTrace, he]
    rw [ih]
    simp

/-- When every completion fails validation, the loop leaves one corrective
message per unit of fuel. -/
theorem arbiterFailTrace_length {D : Type} (complete : List Message → String)
    (validate : String → Except String D)
    (h : ∀ s, ∃ e, validate s = Except.error e) :
    ∀ (fuel : ℕ) (msgs : List Message),
      (arbiterFailTrace complete validate fuel msgs).length = fuel := by
  intro fuel
  induction fuel with
  | zero =>
    intro msgs
    simp [arbiterFailTrace]
  | succ n ih =>
    intro msgs
    obtain ⟨e, he⟩ := h (complete msgs)
    simp [arbiterFailTrace, he, ih]

/-- Every message the failing loop appends is a corrective user turn built
from some validation error. -/
theorem arbiterFailTrace_mem {D : Type} (complete : List Message → String)
    (validate : String → Except String D) :
    ∀ (fuel : ℕ) (msgs : List Message),
      ∀ m ∈ arbiterFailTrace complete validate fuel msgs,
        ∃ e, m = correctiveMessage e := by
  intro fuel
  induction fuel with
  | zero =>
    intro msgs m hm
    simp [arbiterFailTrace] at hm
  | succ n ih =>
    intro msgs m hm
    rcases hv : validate (complete msgs) with e | d
    · simp only [arbiterFailTrace, hv] at hm
      rcases List.mem_cons.mp hm with rfl | hm'
      · exact ⟨e, rfl⟩
      · exact ih _ m hm'
    · simp [arbiterFailTrace, hv] at hm

/-- C1: if every completion attempt yields schema-invalid output, the
arbiter step makes exactly 5 attempts, after each failure appends a
corrective user message quoting the validation error, then ends in the fatal
decision_v1 failure; the loop never runs past its 5 units of fuel (every run
of the loop, with any fuel and any messages, ends in the fatal error here,
never in an accepted decision). -/
theorem C1_arbiter_exhausts_five_attempts :
    ∀ {D : Type} (complete : List Message → String)
      (validate : String → Except String D) (messages : List Message),
      (∀ s, ∃ e, validate s = Except.error e) →
      (run_arbiter complete validate messages).1 = 5
      ∧ (run_arbiter complete validate messages).2.2
          = Except.error fatalDecisionError
      ∧ (run_arbiter complete validate messages).2.1
          = messages ++ arbiterFailTrace complete validate 5 messages
      ∧ (arbiterFailTrace complete validate 5 messages).length = 5
      ∧ (∀ m ∈ arbiterFailTrace complete validate 5 messages,
          m.role = "user" ∧ ∃ e, m = correctiveMessage e ∧ pyIn e m.content)
      ∧ ∀ (fuel : ℕ) (msgs : List Message),
          (arbiterLoop complete validate fuel msgs).2.2
            = Except.error fatalDecisionError := by
  intro D complete validate messages h
  have hl := arbiterLoop_all_fail complete validate h
  refine ⟨?_, ?_, ?_, arbiterFailTrace_length complete validate h 5 messages,
    ?_, fun fuel msgs => ?_⟩
  · rw [run_arbiter, hl]
  · rw [run_arbiter, hl]
  · rw [run_arbiter, hl]
  · intro m hm
    obtain ⟨e, rfl⟩ := arbiterFailTrace_mem complete validate 5 messages m hm
    exact ⟨rfl, e, rfl, pyIn_correctiveMessage e⟩
  · rw [hl]

/-- C1 witness: a validator that rejects everything makes the concrete run
burn exactly 5 attempts and end in the fatal error. -/
theorem C1_witness :
    (∀ s, ∃ e, validateAlwaysFails s = Except.error e)
    ∧ (run_arbiter completeConst validateAlwaysFails []).1 = 5
    ∧ (run_arbiter completeConst validateAlwaysFails []).2.2
        = Except.error fatalDecisionError := by
  have h : ∀ s, ∃ e, validateAlwaysFails s = Except.error e :=
    fun s => ⟨"schema violation", rfl⟩
  obtain ⟨h1, h2, _⟩ :=
    C1_arbiter_exhausts_five_attempts completeConst validateAlwaysFails [] h
  exact ⟨h, h1, h2⟩

/-! ### Dynamic agent generation -/

/-- Inserting into the descending-by-count list only permutes. -/
theorem insertByCountDesc_perm {α : Type} (x : α × ℕ) (l : List (α × ℕ)) :
    List.Perm (insertByCountDesc x l) (x :: l) := by
  induction l with
  | nil => simp [insertByCountDesc]
  | cons y ys ih =>
    simp only [insertByCountDesc]
    by_cases h : y.2 ≤ x.2
    · rw [if_pos h]
    · rw [if_neg h]
      exact List.Perm.trans (List.Perm.cons y ih) (List.Perm.swap x y ys)

/-- The stable descending sort is a permutation of its input. -/
theorem sortByCountDesc_perm {α : Type} (l : List (α × ℕ)) :
    List.Perm (sortByCountDesc l) l := by
  induction l with
  | nil => simp [sortByCountDesc]
  | cons x xs ih =>
    exact List.Perm.trans (insertByCountDesc_perm x (sortByCountDesc xs))
      (List.Perm.cons x ih)

/-- The fallback loop of the topic analyzer preserves distinctness: it only
appends areas that are not already present. -/
theorem padAreas_nodup :
    ∀ (l : List ExpertiseArea) (acc : List ExpertiseArea),
      acc.Nodup → (padAreas acc l).Nodup := by
  intro l
  induction l with
  | nil =>
    intro acc h
    simpa [padAreas] using h
  | cons a rest ih =>
    intro acc h
    simp only [padAreas]
    by_cases hmem : a ∈ acc
    · rw [if_pos hmem]
      split
      · exact h
      · exact ih acc h
    · rw [if_neg hmem]
      have h' : (acc ++ [a]).Nodup := by
        simp [List.nodup_append, h, hmem]
      split
      · exact h'
      · exact ih _ h'

/-- The list of areas the topic analyzer returns never repeats an area. -/
theorem identify_relevant_expertise_nodup (topic : String) :
    (identify_relevant_expertise topic).Nodup := by
  unfold identify_relevant_expertise
  set scores := expertise_keywords.map fun p =>
    (p.1, (p.2.filter fun k => decide (pyIn (pyLower k) (pyLower topic))).length)
    with hscores
  have hkeys : (scores.map Prod.fst).Nodup := by
    have : scores.map Prod.fst = expertise_keywords.map Prod.fst := by
      rw [hscores, List.map_map]
      rfl
    rw [this]
    decide
  have hsortkeys : ((sortByCountDesc scores).map Prod.fst).Nodup :=
    ((sortByCountDesc_perm scores).map Prod.fst).nodup_iff.mpr hkeys
  have hrel : (((sortByCountDesc scores).filter fun p => decide (0 < p.2)).map
      Prod.fst).Nodup :=
    ((List.filter_sublist _).map Prod.fst).nodup hsortkeys
  refine List.Nodup.sublist (List.take_sublist 6 _) ?_
  split
  · exact padAreas_nodup ExpertiseArea.allList _ hrel
  · exact hrel

/-- The expertise areas of the profiles the first selection loop produces
form a sublist of the areas it walked. -/
theorem selected_areas_sublist (topic : String) :
    ∀ l : List ExpertiseArea,
      List.Sublist ((l.filterMap fun area =>
          match agent_templates area with
          | some (p :: _) => some (create_agent_profile area p topic)
          | _ => none).map fun ag => ag.expertise_area) l := by
  intro l
  induction l with
  | nil => simp
  | cons a rest ih =>
    rw [List.filterMap_cons]
    rcases ht : agent_templates a with _ | ps
    · exact List.Sublist.cons a ih
    · rcases ps with _ | ⟨p, ps'⟩
      · exact List.Sublist.cons a ih
      · simpa [create_agent_profile] using List.Sublist.cons₂ a ih

/-- The padding loop preserves distinct expertise areas and never grows the
selection past `max num_agents (len selected)`. -/
theorem padSelectedFuel_nodup_len (topic : String) (num_agents : ℕ) :
    ∀ (fuel : ℕ) (selected : List AgentProfile),
      ((selected.map fun ag => ag.expertise_area).Nodup) →
      (((padSelectedFuel topic num_agents fuel selected).map
          fun ag => ag.expertise_area).Nodup)
      ∧ (padSelectedFuel topic num_agents fuel selected).length
          ≤ max num_agents selected.length := by
  intro fuel
  induction fuel with
  | zero =>
    intro selected hnd
    exact ⟨hnd, by simp [padSelectedFuel]⟩
  | succ n ih =>
    intro selected hnd
    by_cases hlt : selected.length < num_agents
    · simp only [padSelectedFuel, if_pos hlt]
      rcases hfil : ExpertiseArea.allList.filter
          (fun a => decide (a ∉ selected.map fun ag => ag.expertise_area))
        with _ | ⟨a, arest⟩
      · rw [hfil]
        exact ⟨hnd, le_max_of_le_right le_rfl⟩
      · rw [hfil]
        dsimp only
        have hamem : a ∈ ExpertiseArea.allList.filter
            (fun a => decide (a ∉ selected.map fun ag => ag.expertise_area)) := by
          rw [hfil]
          exact List.mem_cons_self a arest
        have ha : a ∉ selected.map fun ag => ag.expertise_area :=
          of_decide_eq_true (List.mem_filter.mp hamem).2
        rcases ht : agent_templates a with _ | ps
        · exact ⟨hnd, le_max_of_le_right le_rfl⟩
        · rcases ps with _ | ⟨p, ps'⟩
          · exact ⟨hnd, le_max_of_le_right le_rfl⟩
          · dsimp only
            have hmap : ((selected ++ [create_agent_profile a p topic]).map
                  fun ag => ag.expertise_area)
                = (selected.map fun ag => ag.expertise_area) ++ [a] := by
              simp [create_agent_profile]
            have hdisj : List.Disjoint
                (selected.map fun ag => ag.expertise_area) [a] := by
              intro x hx hxa
              simp only [List.mem_singleton] at hxa
              subst hxa
              exact ha hx
            have hnd' : (((selected ++ [create_agent_profile a p topic]).map
                fun ag => ag.expertise_area).Nodup) :=
              hmap ▸ hnd.append (List.nodup_singleton a) hdisj
            obtain ⟨ih1, ih2⟩ := ih (selected ++ [create_agent_profile a p topic]) hnd'
            refine ⟨ih1, ?_⟩
            rw [List.length_append] at ih2
            simp only [List.length_singleton] at ih2
            omega
    · simp only [padSelectedFuel, if_neg hlt]
      exact ⟨hnd, le_max_of_le_right le_rfl⟩

/-- C3 counterexample: for the empty topic and a request for 5 agents the
factory returns 4 profiles — neither the requested 5 nor
min(5, number of areas with template entries) = min(5, 5) = 5; the padding
loop stops at LEGAL, the first unused enumeration-order area without a
template, instead of skipping it. -/
theorem C3_padding_stops_short :
    (analyze_topic_and_generate_agents "" 5).length
        ≠ min 5 ((ExpertiseArea.allList.filter
            fun a => (agent_templates a).isSome).length)
    ∧ (analyze_topic_and_generate_agents "" 5).length ≠ 5 := by
  constructor <;> decide

/-- C3 (amended): for every topic and requested count, no two returned
profiles share an expertise area and at most the requested number of
profiles is returned; the count can fall short of both the request and
min(request, number of template-backed areas), because the padding loop
breaks at the first unused enumeration-order area without a template (LEGAL)
rather than skipping it — concretely, a topic matching no keywords with 5
requested agents yields exactly 4 profiles, for TECHNOLOGY, BUSINESS,
ACADEMIC and CREATIVE: SOCIAL is never reached although it has a
template. -/
theorem C3_distinct_areas_at_most_requested :
    (∀ (topic : String) (num_agents : ℕ),
      (((analyze_topic_and_generate_agents topic num_agents).map
          fun ag => ag.expertise_area).Nodup)
      ∧ (analyze_topic_and_generate_agents topic num_agents).length
          ≤ num_agents)
    ∧ (analyze_topic_and_generate_agents "" 5).length = 4
    ∧ (analyze_topic_and_generate_agents "" 5).map (fun ag => ag.expertise_area)
        = [ExpertiseArea.TECHNOLOGY, ExpertiseArea.BUSINESS,
           ExpertiseArea.ACADEMIC, ExpertiseArea.CREATIVE] := by
  refine ⟨fun topic num_agents => ?_, by decide, by decide⟩
  have hgen : ∀ sel : List AgentProfile,
      ((sel.map fun ag => ag.expertise_area).Nodup) → sel.length ≤ num_agents →
      (((padSelected topic num_agents sel).map
          fun ag => ag.expertise_area).Nodup)
      ∧ (padSelected topic num_agents sel).length ≤ num_agents := by
    intro sel h1 h2
    obtain ⟨hp1, hp2⟩ := padSelectedFuel_nodup_len topic num_agents
      (num_agents - sel.length) sel h1
    refine ⟨hp1, ?_⟩
    rw [padSelected]
    omega
  have hnd0 := identify_relevant_expertise_nodup topic
  have hsub := selected_areas_sublist topic
    ((identify_relevant_expertise topic).take num_agents)
  have hndsel := hsub.nodup ((List.take_sublist _ _).nodup hnd0)
  have hlen1 := hsub.length_le
  rw [List.length_map] at hlen1
  have hlen2 : ((identify_relevant_expertise topic).take num_agents).length
      ≤ num_agents := by
    rw [List.length_take]
    exact min_le_left _ _
  exact hgen _ hndsel (le_trans hlen1 hlen2)

end MADS
